import Mathlib

/-!
# Shallow embedding of `cluster::self_test::cloudcheck`

This file embeds the cloud-storage self-test engine found in
`src/v/cluster/self_test/cloudcheck.cc` (namespace `cluster::self_test`).

Modelling decisions:

* Byte buffers (`iobuf`) are lists of bytes; `iobuf` equality in the source
  is deep content comparison, so list equality is faithful.
* The storage-client collaborator (`cloud_storage::remote`) is external to
  the sampled source; each probe's single remote call is modelled by a
  `client_behavior` record giving, per operation, either a returned outcome
  (`Except.ok`) or a thrown exception carrying its message (`Except.error`),
  together with the elapsed wall time of the call as observed by the
  monotonic clock samples `start`/`end` surrounding it.
* Every probe additionally returns the list of storage-client calls it
  performed, so that "performs no storage-client operation" is a statement
  about the embedded program.
* The mutable `_cancelled` flag is set to `false` at the top of `run` and
  can be set to `true` by `cancel()` at any point between probes; the value
  observed by probe `i` is `flagFrom false c i`, where `c i` records whether
  a `cancel()` call landed after probe `i - 1` completed and before probe
  `i` began (with `c 0` covering the window after the reset).
-/

namespace Cloudcheck

/-- `iobuf` payloads, modelled as byte lists (deep content equality). -/
abbrev Bytes := List Nat

/-- `cloud_storage::upload_result`; also the outcome type of `delete_object`. -/
inductive upload_result where
  | success
  | timedout
  | failed
  | cancelled
deriving DecidableEq, Repr

/-- `cloud_storage::download_result`. -/
inductive download_result where
  | success
  | timedout
  | failed
  | notfound
deriving DecidableEq, Repr

/-- One entry of a bucket listing. Modelled from the spec: the collaborator's
listing "carries a sequence of `{key, size}` entries" (the declaration of
`list_bucket_item` is not part of the sampled source); `cloudcheck.cc` reads
exactly the fields `key` and `size_bytes` of each entry. -/
structure list_item where
  key : String
  size_bytes : Nat
deriving DecidableEq, Repr

/-- The successful payload of `cloud_storage::remote::list_result`:
`cloudcheck.cc` reads its `contents` sequence. -/
structure list_bucket_result where
  contents : List list_item
deriving DecidableEq, Repr

/-- `cloud_storage::remote::list_result`, a `result<list_bucket_result,
error_outcome>`: `none` stands for the `error_outcome::fail` sentinel that
`verify_list` returns on every non-listing path, and a listing tests truthy
exactly when present (`if (!object_list)`). -/
abbrev list_result := Option list_bucket_result

/-- Modelled from the spec: `self_test_result` (declared outside the sampled
source) is one record per probe with `name`, a probe label (`info`), the fixed
test-category tag (`test_type`), optional `warning` and `error` messages, and
a default-initialised `duration`. Assignment of `duration` is tracked with
`Option`: it stays `none` until the probe executes `result.duration = end -
start`, which stores the elapsed time `some d`. -/
structure self_test_result where
  name : String
  info : String := ""
  test_type : String := ""
  duration : Option Nat := none
  warning : Option String := none
  error : Option String := none
deriving DecidableEq, Repr

instance : Inhabited self_test_result := ⟨{ name := "" }⟩

/-- A call to the storage-client collaborator, as issued by a probe.
Modelled from the spec: the collaborator contract is
`upload(request)`, `list(bucket, cancellation_scope, prefix, …, max_keys)`,
`download(request)`, `delete(bucket, key, cancellation_scope)`; for `list`
we record the bucket, the prefix argument actually passed in that position,
and the key bound. Retry scopes carry no data relevant to the claims and are
omitted from the recorded call. -/
inductive storage_call where
  | upload (bucket : String) (key : String) (payload : Bytes)
  | list (bucket : String) (pfx : Option String) (max_keys : Nat)
  | download (bucket : String) (key : String)
  | delete (bucket : String) (key : String)
deriving DecidableEq, Repr

/-- The behavior of the storage-client collaborator and the clock during one
invocation: for each operation, the outcome of its (single) call — either a
returned enum value / listing (`Except.ok`) or a thrown exception with its
`e.what()` message (`Except.error`) — plus the elapsed time between the
`ss::lowres_clock::now()` samples taken immediately before and after it.
`download_bytes` is the content the client writes into the caller-supplied
buffer when the download outcome is `success`. -/
structure client_behavior where
  upload_outcome : Except String upload_result
  upload_elapsed : Nat
  list_outcome : Except String list_result
  list_elapsed : Nat
  download_outcome : Except String download_result
  download_bytes : Bytes
  download_elapsed : Nat
  delete_outcome : Except String upload_result
  delete_elapsed : Nat

/-- The configuration fields `run` and `run_benchmarks` read from
`config::shard_local_cfg()` and the bucket configuration. -/
structure configuration where
  cloud_storage_enabled : Bool
  cloud_storage_enable_remote_read : Bool
  cloud_storage_enable_remote_write : Bool
  bucket : String

/-- `cloudcheck_opts`: the per-invocation options; only `name` flows into the
results, `timeout` and `backoff` are handed to each probe's retry scope. -/
structure cloudcheck_opts where
  name : String
  timeout : Nat := 0
  backoff : Nat := 0

/-- Per-invocation nondeterminism: the generated uuid, the random payload
produced by `make_random_payload`, and the storage client's behavior. -/
structure bench_env where
  uuid : String
  gen_payload : Bytes
  cb : client_behavior

/-- The value of the `_cancelled` flag observed at the start of probe `i`,
given the flag value `init` right after `run`'s reset and, for each `i`,
whether a `cancel()` call (which executes `_cancelled = true`) landed in the
window just before probe `i` begins. The flag is never cleared during a run. -/
def flagFrom (init : Bool) (c : Nat → Bool) : Nat → Bool
  | 0 => init || c 0
  | i + 1 => flagFrom init c i || c (i + 1)

/-- `cloudcheck::verify_upload` (cloudcheck.cc:212-258). Returns the probe's
`self_test_result` and the storage-client calls it issued. -/
def verify_upload (name : String) (cancelled remote_write_enabled : Bool)
    (bucket key : String) (payload : Option Bytes) (cb : client_behavior) :
    self_test_result × List storage_call :=
  let result : self_test_result :=
    { name := name, info := "upload", test_type := "cloud_storage" }
  if cancelled then
    ({ result with warning := some "Run was manually cancelled." }, [])
  else if !remote_write_enabled then
    ({ result with error := some "Remote write is not enabled for this cluster." }, [])
  else
    -- make_upload_request(bucket, key, payload.value().copy(), rtc);
    -- the orchestrator generates the payload whenever remote write is enabled,
    -- so `payload` is present on this path.
    let call := storage_call.upload bucket key (payload.getD [])
    match cb.upload_outcome with
    | Except.ok r =>
        let result :=
          if r = upload_result.success then result
          else { result with error := some "Failed to upload to cloud storage." }
        ({ result with duration := some cb.upload_elapsed }, [call])
    | Except.error msg =>
        ({ result with error := some msg, duration := some cb.upload_elapsed }, [call])

/-- `cloudcheck::verify_list` (cloudcheck.cc:260-302). Returns the pair
`(list_result, self_test_result)` the source returns, plus the issued calls.
The source's `prefix` parameter is `pfx` here; note that the body passes
`std::nullopt` — not `pfx` — in the prefix position of
`list_objects(bucket, rtc, std::nullopt, std::nullopt, std::nullopt,
max_keys)`, and that on the non-throwing path the `co_return` inside the
`try` block skips the `result.duration = end - start` statement. -/
def verify_list (name : String) (cancelled remote_read_enabled : Bool)
    (bucket : String) (pfx : String) (max_keys : Nat) (cb : client_behavior) :
    (list_result × self_test_result) × List storage_call :=
  let result : self_test_result :=
    { name := name, info := "list", test_type := "cloud_storage" }
  if cancelled then
    (((none : list_result), { result with warning := some "Run was manually cancelled." }), [])
  else if !remote_read_enabled then
    (((none : list_result),
      { result with error := some "Remote read is not enabled for this cluster." }), [])
  else
    let call := storage_call.list bucket none max_keys
    match cb.list_outcome with
    | Except.ok object_list =>
        let result :=
          if object_list.isNone then
            { result with error := some "Failed to list objects in cloud storage." }
          else result
        ((object_list, result), [call])
    | Except.error msg =>
        (((none : list_result),
          { result with error := some msg, duration := some cb.list_elapsed }), [call])

/-- `cloudcheck::verify_download` (cloudcheck.cc:304-361). Returns the pair
`(optional downloaded bytes, self_test_result)` plus the issued calls. As in
`verify_list`, the `co_return` on the non-throwing path sits inside the `try`
block, before the `result.duration = end - start` statement. -/
def verify_download (name : String) (cancelled remote_read_enabled : Bool)
    (bucket : String) (key : Option String) (cb : client_behavior) :
    (Option Bytes × self_test_result) × List storage_call :=
  let result : self_test_result :=
    { name := name, info := "download", test_type := "cloud_storage" }
  if cancelled then
    (((none : Option Bytes), { result with warning := some "Run was manually cancelled." }), [])
  else if !remote_read_enabled then
    (((none : Option Bytes),
      { result with error := some "Remote read is not enabled for this cluster." }), [])
  else
    match key with
    | none =>
        (((none : Option Bytes),
          { result with warning := some "Could not download from cloud storage (no file was found in the bucket)." }), [])
    | some k =>
        let call := storage_call.download bucket k
        match cb.download_outcome with
        | Except.ok r =>
            if r = download_result.success then
              ((some cb.download_bytes, result), [call])
            else
              (((none : Option Bytes),
                { result with error := some "Failed to download from cloud storage." }), [call])
        | Except.error msg =>
            (((none : Option Bytes),
              { result with error := some msg, duration := some cb.download_elapsed }), [call])

/-- `cloudcheck::verify_delete` (cloudcheck.cc:363-405). -/
def verify_delete (name : String) (cancelled remote_write_enabled : Bool)
    (bucket key : String) (cb : client_behavior) :
    self_test_result × List storage_call :=
  let result : self_test_result :=
    { name := name, info := "delete", test_type := "cloud_storage" }
  if cancelled then
    ({ result with warning := some "Run was manually cancelled." }, [])
  else if !remote_write_enabled then
    ({ result with error := some "Remote write is not enabled for this cluster." }, [])
  else
    let call := storage_call.delete bucket key
    match cb.delete_outcome with
    | Except.ok r =>
        let result :=
          if r = upload_result.success then result
          else { result with error := some "Failed to delete from cloud storage." }
        ({ result with duration := some cb.delete_elapsed }, [call])
    | Except.error msg =>
        ({ result with error := some msg, duration := some cb.delete_elapsed }, [call])

/-- `std::min_element` over the listing contents with comparator
`a.size_bytes < b.size_bytes`: the first element no later element is
strictly smaller than; `none` on an empty range. -/
def min_element (l : List list_item) : Option list_item :=
  match l with
  | [] => none
  | x :: xs =>
      some (xs.foldl (fun acc b => if b.size_bytes < acc.size_bytes then b else acc) x)

/-- The `get_min_object_key` lambda of `run_benchmarks` (cloudcheck.cc:134-153):
no listing, or an empty listing, yields no candidate; otherwise the key of the
smallest listed object. -/
def get_min_object_key (object_list : list_result) : Option String :=
  match object_list with
  | none => none
  | some ol =>
    match min_element ol.contents with
    | none => none
    | some smallest_object => some smallest_object.key

/-- The list-probe cross-check of `run_benchmarks` (cloudcheck.cc:112-126):
if upload succeeded and a listing was obtained, `find_if` looks for the
uploaded key among the contents and overwrites `error` when it is absent. -/
def check_list_consistency (is_uploaded : Bool) (key : String)
    (object_list : list_result) (r : self_test_result) : self_test_result :=
  match is_uploaded, object_list with
  | true, some ol =>
      if ol.contents.any (fun item => item.key == key) then r
      else
        { r with error := some "Uploaded key/payload could not be found in cloud storage item list." }
  | _, _ => r

/-- The download-probe cross-check of `run_benchmarks` (cloudcheck.cc:160-166):
if upload succeeded and bytes were downloaded, compare them with the
generated payload and overwrite `error` on any difference. -/
def check_download_consistency (is_uploaded : Bool) (payload : Option Bytes)
    (downloaded : Option Bytes) (r : self_test_result) : self_test_result :=
  match is_uploaded, downloaded with
  | true, some downloaded_buf =>
      if downloaded_buf = payload.getD [] then r
      else { r with error := some "Downloaded object differs from uploaded payload." }
  | _, _ => r

/-- `cloudcheck::run_benchmarks` (cloudcheck.cc:83-175): the four probes in
order upload, list, download, delete. `fl i` is the `_cancelled` value probe
`i` observes. Returns the accumulated `results` vector and, per probe, the
storage-client calls it issued. -/
def run_benchmarks (name : String) (rr rw : Bool) (bucket : String)
    (max_keys : Nat) (env : bench_env) (fl : Nat → Bool) :
    List self_test_result × List (List storage_call) :=
  let self_test_key := "self-test/" ++ env.uuid
  let payload : Option Bytes := if rw then some env.gen_payload else none
  let up := verify_upload name (fl 0) rw bucket self_test_key payload env.cb
  let is_uploaded := up.1.warning.isNone && up.1.error.isNone
  let li := verify_list name (fl 1) rr bucket "self-test/" max_keys env.cb
  let object_list := li.1.1
  let list_test_result := check_list_consistency is_uploaded self_test_key object_list li.1.2
  let download_key : Option String :=
    if is_uploaded then some self_test_key else get_min_object_key object_list
  let dl := verify_download name (fl 2) rr bucket download_key env.cb
  let download_test_result :=
    check_download_consistency is_uploaded payload dl.1.1 dl.1.2
  let de := verify_delete name (fl 3) rw bucket self_test_key env.cb
  ([up.1, list_test_result, download_test_result, de.1],
   [up.2, li.2, dl.2, de.2])

/-- `cloudcheck::run` (cloudcheck.cc:37-81). `prior_cancelled` is the value
of `_cancelled` left over from before this invocation; the first statement of
`run` assigns `_cancelled = false`, so the probes observe
`flagFrom false cancelAt` — the prior value is discarded. The three gates are
checked in source order: closed gate, cloud storage disabled, uninitialised
storage api. -/
def run (prior_cancelled : Bool) (gate_closed : Bool) (opts : cloudcheck_opts)
    (cfg : configuration) (api_initialized : Bool) (max_keys : Nat)
    (env : bench_env) (cancelAt : Nat → Bool) :
    List self_test_result × List (List storage_call) :=
  if gate_closed then
    ([{ name := opts.name, warning := some "cloudcheck - gate already closed" }], [])
  else if !cfg.cloud_storage_enabled then
    ([{ name := opts.name, warning := some "Cloud storage is not enabled." }], [])
  else if !api_initialized then
    ([{ name := opts.name, warning := some "cloud_storage_api is not initialized." }], [])
  else
    run_benchmarks opts.name cfg.cloud_storage_enable_remote_read
      cfg.cloud_storage_enable_remote_write cfg.bucket max_keys env
      (flagFrom false cancelAt)

/-- `cloudcheck::cancel` (cloudcheck.cc:35): `_cancelled = true`. -/
def cancel (_cancelled : Bool) : Bool := true

/-- A healthy storage client: every operation returns success, the listing
contains the self-test object `self-test/u1`, and the downloaded bytes equal
the generated payload of `envOk`. -/
def cbOk : client_behavior :=
  { upload_outcome := Except.ok upload_result.success
    upload_elapsed := 3
    list_outcome := Except.ok (some { contents := [{ key := "self-test/u1", size_bytes := 3 }] })
    list_elapsed := 4
    download_outcome := Except.ok download_result.success
    download_bytes := [1, 2, 3]
    download_elapsed := 5
    delete_outcome := Except.ok upload_result.success
    delete_elapsed := 6 }

/-- An invocation environment over the healthy client. -/
def envOk : bench_env :=
  { uuid := "u1", gen_payload := [1, 2, 3], cb := cbOk }

/-- A client whose list call throws an exception after 4 time units. -/
def cbThrow : client_behavior :=
  { cbOk with list_outcome := Except.error "boom", list_elapsed := 4 }

/-- A client that succeeds everywhere but returns download bytes different
from the generated payload of `envBad`. -/
def envBad : bench_env :=
  { uuid := "u1", gen_payload := [1, 2, 3],
    cb := { cbOk with download_bytes := [9] } }

/-- A client whose (successful) listing does not contain the self-test key
`self-test/u1`, only a foreign object. -/
def envMissingKey : bench_env :=
  { uuid := "u1", gen_payload := [1, 2, 3],
    cb := { cbOk with
      list_outcome := Except.ok (some { contents := [{ key := "other", size_bytes := 7 }] }) } }

/-- A client whose upload call reports failure while the listing succeeds,
with two objects of sizes 8 and 2. -/
def envUploadFailed : bench_env :=
  { uuid := "u1", gen_payload := [1, 2, 3],
    cb := { cbOk with
      upload_outcome := Except.ok upload_result.failed
      list_outcome := Except.ok (some { contents :=
        [{ key := "big", size_bytes := 8 }, { key := "small", size_bytes := 2 }] }) } }

/-- A client whose upload call reports failure and whose listing comes back
empty, so the download probe has no candidate key. -/
def envNoCandidate : bench_env :=
  { uuid := "u1", gen_payload := [1, 2, 3],
    cb := { cbOk with
      upload_outcome := Except.ok upload_result.failed
      list_outcome := Except.ok (some { contents := [] }) } }

/-- The configuration with cloud storage, remote read and remote write all
enabled. -/
def cfgAll : configuration :=
  { cloud_storage_enabled := true
    cloud_storage_enable_remote_read := true
    cloud_storage_enable_remote_write := true
    bucket := "bkt" }

/-! ## Helper lemmas about the cancellation flag -/

theorem flagFrom_mono (init : Bool) (c : Nat → Bool) {i j : Nat} (hij : i ≤ j)
    (h : flagFrom init c i = true) : flagFrom init c j = true := by
  induction hij with
  | refl => exact h
  | step _ ih => simp [flagFrom, ih]

theorem flagFrom_agree (init : Bool) (c c' : Nat → Bool) (i : Nat)
    (h : ∀ k, k ≤ i → c' k = c k) :
    ∀ j, j ≤ i → flagFrom init c' j = flagFrom init c j := by
  intro j hj
  induction j with
  | zero => simp [flagFrom, h 0 (Nat.le_trans (Nat.zero_le _) hj)]
  | succ j ih =>
      simp [flagFrom, ih (Nat.le_of_succ_le hj), h (j + 1) hj]

/-! ## Helper lemmas about `min_element` -/

theorem min_foldl_mem (x : list_item) (xs : List list_item) :
    xs.foldl (fun acc b => if b.size_bytes < acc.size_bytes then b else acc) x ∈ x :: xs := by
  induction xs generalizing x with
  | nil => simp
  | cons y ys ih =>
      simp only [List.foldl]
      rcases List.mem_cons.mp (ih (if y.size_bytes < x.size_bytes then y else x)) with h1 | h1
      · rw [h1]
        by_cases hc : y.size_bytes < x.size_bytes <;> simp [hc]
      · simp [List.mem_cons_of_mem, h1]

theorem min_foldl_le (x : list_item) (xs : List list_item) :
    ∀ y ∈ x :: xs,
      (xs.foldl (fun acc b => if b.size_bytes < acc.size_bytes then b else acc) x).size_bytes
        ≤ y.size_bytes := by
  induction xs generalizing x with
  | nil =>
      intro y hy
      simp only [List.mem_singleton] at hy
      simp [hy]
  | cons z zs ih =>
      intro y hy
      simp only [List.foldl]
      have hwx : (if z.size_bytes < x.size_bytes then z else x).size_bytes ≤ x.size_bytes := by
        by_cases hc : z.size_bytes < x.size_bytes <;> simp [hc] <;> omega
      have hwz : (if z.size_bytes < x.size_bytes then z else x).size_bytes ≤ z.size_bytes := by
        by_cases hc : z.size_bytes < x.size_bytes <;> simp [hc] <;> omega
      have hfw := ih (if z.size_bytes < x.size_bytes then z else x)
        (if z.size_bytes < x.size_bytes then z else x) (List.mem_cons_self _ _)
      rcases List.mem_cons.mp hy with h1 | h1
      · subst h1; exact Nat.le_trans hfw hwx
      · rcases List.mem_cons.mp h1 with h2 | h2
        · subst h2; exact Nat.le_trans hfw hwz
        · exact ih (if z.size_bytes < x.size_bytes then z else x) y (List.mem_cons_of_mem _ h2)

theorem min_element_spec (l : List list_item) (m : list_item)
    (h : min_element l = some m) :
    m ∈ l ∧ ∀ y ∈ l, m.size_bytes ≤ y.size_bytes := by
  cases l with
  | nil => simp [min_element] at h
  | cons x xs =>
      simp only [min_element, Option.some.injEq] at h
      subst h
      exact ⟨min_foldl_mem x xs, min_foldl_le x xs⟩

theorem min_element_eq_none (l : List list_item) :
    min_element l = none ↔ l = [] := by
  cases l <;> simp [min_element]

theorem get_min_object_key_some (ol : list_bucket_result) (k : String)
    (h : get_min_object_key (some ol) = some k) :
    ∃ item ∈ ol.contents,
      item.key = k ∧ ∀ y ∈ ol.contents, item.size_bytes ≤ y.size_bytes := by
  simp only [get_min_object_key] at h
  cases hm : min_element ol.contents with
  | none => rw [hm] at h; exact absurd h (by simp)
  | some m =>
      rw [hm] at h
      simp only [Option.some.injEq] at h
      rcases min_element_spec ol.contents m hm with ⟨hmem, hle⟩
      exact ⟨m, hmem, h, hle⟩

/-! ## Per-probe field lemmas -/

theorem verify_upload_fields (n : String) (ca rw : Bool) (b k : String)
    (p : Option Bytes) (cb : client_behavior) :
    (verify_upload n ca rw b k p cb).1.name = n
      ∧ (verify_upload n ca rw b k p cb).1.info = "upload"
      ∧ (verify_upload n ca rw b k p cb).1.test_type = "cloud_storage"
      ∧ ((verify_upload n ca rw b k p cb).1.warning = none
          ∨ (verify_upload n ca rw b k p cb).1.error = none) := by
  unfold verify_upload
  cases ca
  · cases rw
    · simp
    · cases h : cb.upload_outcome with
      | ok r => cases r <;> simp [h]
      | error m => simp [h]
  · simp

theorem verify_list_fields (n : String) (ca rr : Bool) (b pfx : String)
    (mk : Nat) (cb : client_behavior) :
    (verify_list n ca rr b pfx mk cb).1.2.name = n
      ∧ (verify_list n ca rr b pfx mk cb).1.2.info = "list"
      ∧ (verify_list n ca rr b pfx mk cb).1.2.test_type = "cloud_storage"
      ∧ ((verify_list n ca rr b pfx mk cb).1.2.warning = none
          ∨ (verify_list n ca rr b pfx mk cb).1.2.error = none) := by
  unfold verify_list
  cases ca
  · cases rr
    · simp
    · cases h : cb.list_outcome with
      | ok x => cases x <;> simp [h]
      | error m => simp [h]
  · simp

theorem verify_download_fields (n : String) (ca rr : Bool) (b : String)
    (okey : Option String) (cb : client_behavior) :
    (verify_download n ca rr b okey cb).1.2.name = n
      ∧ (verify_download n ca rr b okey cb).1.2.info = "download"
      ∧ (verify_download n ca rr b okey cb).1.2.test_type = "cloud_storage"
      ∧ ((verify_download n ca rr b okey cb).1.2.warning = none
          ∨ (verify_download n ca rr b okey cb).1.2.error = none) := by
  unfold verify_download
  cases ca
  · cases rr
    · simp
    · cases okey with
      | none => simp
      | some k =>
          cases h : cb.download_outcome with
          | ok r => cases r <;> simp [h]
          | error m => simp [h]
  · simp

theorem verify_delete_fields (n : String) (ca rw : Bool) (b k : String)
    (cb : client_behavior) :
    (verify_delete n ca rw b k cb).1.name = n
      ∧ (verify_delete n ca rw b k cb).1.info = "delete"
      ∧ (verify_delete n ca rw b k cb).1.test_type = "cloud_storage"
      ∧ ((verify_delete n ca rw b k cb).1.warning = none
          ∨ (verify_delete n ca rw b k cb).1.error = none) := by
  unfold verify_delete
  cases ca
  · cases rw
    · simp
    · cases h : cb.delete_outcome with
      | ok r => cases r <;> simp [h]
      | error m => simp [h]
  · simp

/-- Whenever `verify_list` hands back an actual listing, its result record is
still the pristine probe record (in particular `warning = none` and
`error = none`). -/
theorem verify_list_some_clean (n : String) (ca rr : Bool) (b pfx : String)
    (mk : Nat) (cb : client_behavior) (ol : list_bucket_result)
    (h : (verify_list n ca rr b pfx mk cb).1.1 = some ol) :
    (verify_list n ca rr b pfx mk cb).1.2
      = { name := n, info := "list", test_type := "cloud_storage" } := by
  unfold verify_list at *
  cases ca
  · cases rr
    · simp at h
    · cases hx : cb.list_outcome with
      | ok x =>
          cases x with
          | none => rw [hx] at h; simp at h
          | some ol2 => simp [hx]
      | error m => rw [hx] at h; simp at h
  · simp at h

/-- Whenever `verify_download` hands back downloaded bytes, its result record
is still the pristine probe record. -/
theorem verify_download_some_clean (n : String) (ca rr : Bool) (b : String)
    (okey : Option String) (cb : client_behavior) (buf : Bytes)
    (h : (verify_download n ca rr b okey cb).1.1 = some buf) :
    (verify_download n ca rr b okey cb).1.2
      = { name := n, info := "download", test_type := "cloud_storage" } := by
  unfold verify_download at *
  cases ca
  · cases rr
    · simp at h
    · cases okey with
      | none => simp at h
      | some k =>
          cases hx : cb.download_outcome with
          | ok r =>
              cases r with
              | success => simp [hx]
              | timedout => rw [hx] at h; simp at h
              | failed => rw [hx] at h; simp at h
              | notfound => rw [hx] at h; simp at h
          | error m => rw [hx] at h; simp at h
  · simp at h

/-- `verify_download` issues exactly one download call for the given key once
its preconditions pass, whatever the outcome. -/
theorem verify_download_calls_some (n : String) (b k : String)
    (cb : client_behavior) :
    (verify_download n false true b (some k) cb).2
      = [storage_call.download b k] := by
  unfold verify_download
  cases h : cb.download_outcome with
  | ok r => cases r <;> simp [h]
  | error m => simp [h]

/-! ## Pass-through lemmas for the cross-probe consistency checks -/

theorem check_list_consistency_none (u : Bool) (k : String)
    (r : self_test_result) :
    check_list_consistency u k none r = r := by
  cases u <;> rfl

theorem check_download_consistency_none (u : Bool) (p : Option Bytes)
    (r : self_test_result) :
    check_download_consistency u p none r = r := by
  cases u <;> rfl

theorem check_list_consistency_false (k : String) (ol : list_result)
    (r : self_test_result) :
    check_list_consistency false k ol r = r := by
  cases ol <;> rfl

theorem check_download_consistency_false (p : Option Bytes)
    (d : Option Bytes) (r : self_test_result) :
    check_download_consistency false p d r = r := by
  cases d <;> rfl

theorem check_list_consistency_warning (u : Bool) (k : String)
    (ol : list_result) (r : self_test_result) :
    (check_list_consistency u k ol r).warning = r.warning := by
  unfold check_list_consistency
  cases u <;> cases ol <;> simp
  split <;> simp

theorem check_list_consistency_info (u : Bool) (k : String)
    (ol : list_result) (r : self_test_result) :
    (check_list_consistency u k ol r).info = r.info := by
  unfold check_list_consistency
  cases u <;> cases ol <;> simp
  split <;> simp

theorem check_download_consistency_warning (u : Bool) (p : Option Bytes)
    (d : Option Bytes) (r : self_test_result) :
    (check_download_consistency u p d r).warning = r.warning := by
  unfold check_download_consistency
  cases u <;> cases d <;> simp
  split <;> simp

theorem check_download_consistency_info (u : Bool) (p : Option Bytes)
    (d : Option Bytes) (r : self_test_result) :
    (check_download_consistency u p d r).info = r.info := by
  unfold check_download_consistency
  cases u <;> cases d <;> simp
  split <;> simp

theorem verify_upload_info (n : String) (ca rw : Bool) (b k : String)
    (p : Option Bytes) (cb : client_behavior) :
    (verify_upload n ca rw b k p cb).1.info = "upload" :=
  (verify_upload_fields n ca rw b k p cb).2.1

theorem verify_list_info (n : String) (ca rr : Bool) (b pfx : String)
    (mk : Nat) (cb : client_behavior) :
    (verify_list n ca rr b pfx mk cb).1.2.info = "list" :=
  (verify_list_fields n ca rr b pfx mk cb).2.1

theorem verify_download_info (n : String) (ca rr : Bool) (b : String)
    (okey : Option String) (cb : client_behavior) :
    (verify_download n ca rr b okey cb).1.2.info = "download" :=
  (verify_download_fields n ca rr b okey cb).2.1

theorem verify_delete_info (n : String) (ca rw : Bool) (b k : String)
    (cb : client_behavior) :
    (verify_delete n ca rw b k cb).1.info = "delete" :=
  (verify_delete_fields n ca rw b k cb).2.1

theorem verify_upload_disjoint (n : String) (ca rw : Bool) (b k : String)
    (p : Option Bytes) (cb : client_behavior) :
    (verify_upload n ca rw b k p cb).1.warning = none
      ∨ (verify_upload n ca rw b k p cb).1.error = none :=
  (verify_upload_fields n ca rw b k p cb).2.2.2

theorem verify_list_disjoint (n : String) (ca rr : Bool) (b pfx : String)
    (mk : Nat) (cb : client_behavior) :
    (verify_list n ca rr b pfx mk cb).1.2.warning = none
      ∨ (verify_list n ca rr b pfx mk cb).1.2.error = none :=
  (verify_list_fields n ca rr b pfx mk cb).2.2.2

theorem verify_download_disjoint (n : String) (ca rr : Bool) (b : String)
    (okey : Option String) (cb : client_behavior) :
    (verify_download n ca rr b okey cb).1.2.warning = none
      ∨ (verify_download n ca rr b okey cb).1.2.error = none :=
  (verify_download_fields n ca rr b okey cb).2.2.2

theorem verify_delete_disjoint (n : String) (ca rw : Bool) (b k : String)
    (cb : client_behavior) :
    (verify_delete n ca rw b k cb).1.warning = none
      ∨ (verify_delete n ca rw b k cb).1.error = none :=
  (verify_delete_fields n ca rw b k cb).2.2.2

/-! ## Shape of a full probe sequence -/

/-- `run_benchmarks` always yields exactly four results, labelled in probe
order, with `warning` and `error` never both set. -/
theorem run_benchmarks_shape (n : String) (rr rw : Bool) (b : String)
    (mk : Nat) (env : bench_env) (fl : Nat → Bool) :
    (run_benchmarks n rr rw b mk env fl).1.length = 4
      ∧ (run_benchmarks n rr rw b mk env fl).1.map (fun r => r.info)
          = ["upload", "list", "download", "delete"]
      ∧ ∀ r ∈ (run_benchmarks n rr rw b mk env fl).1,
          r.warning = none ∨ r.error = none := by
  refine ⟨by simp [run_benchmarks], ?_, ?_⟩
  · simp [run_benchmarks, check_list_consistency_info, check_download_consistency_info,
      verify_upload_info, verify_list_info, verify_download_info, verify_delete_info]
  · intro r hr
    simp only [run_benchmarks, List.mem_cons, List.not_mem_nil, or_false] at hr
    rcases hr with rfl | rfl | rfl | rfl
    · exact verify_upload_disjoint n (fl 0) rw b _ _ env.cb
    · cases hol : (verify_list n (fl 1) rr b "self-test/" mk env.cb).1.1 with
      | none =>
          rw [check_list_consistency_none]
          exact verify_list_disjoint n (fl 1) rr b _ mk env.cb
      | some ol =>
          left
          rw [check_list_consistency_warning,
            verify_list_some_clean n (fl 1) rr b _ mk env.cb ol hol]
    · cases hdl : (verify_download n (fl 2) rr b _ env.cb).1.1 with
      | none =>
          rw [check_download_consistency_none]
          exact verify_download_disjoint n (fl 2) rr b _ env.cb
      | some buf =>
          left
          rw [check_download_consistency_warning,
            verify_download_some_clean n (fl 2) rr b _ env.cb buf hdl]
    · exact verify_delete_disjoint n (fl 3) rw b _ env.cb

/-! ## Claim theorems -/

/-- C1: a `run` call made while a prior invocation holds the reentrancy guard
(observed by `run` as its gate being closed) returns exactly one result, whose
`warning` carries the gate-rejection message, and invokes no storage-client
operation whatsoever. -/
theorem run_guard_held_single_warning_no_calls (a gc : Bool)
    (opts : cloudcheck_opts) (cfg : configuration) (ini : Bool) (mk : Nat)
    (env : bench_env) (c : Nat → Bool) (h : gc = true) :
    (run a gc opts cfg ini mk env c).1
        = [{ name := opts.name, warning := some "cloudcheck - gate already closed" }]
      ∧ (run a gc opts cfg ini mk env c).2 = [] := by
  subst h
  exact ⟨rfl, rfl⟩

theorem run_guard_held_single_warning_no_calls_witness :
    (true = true)
      ∧ ((run false true { name := "t" } cfgAll true 5 envOk (fun _ => false)).1
            = [{ name := "t", warning := some "cloudcheck - gate already closed" }]
          ∧ (run false true { name := "t" } cfgAll true 5 envOk (fun _ => false)).2 = []) :=
  ⟨rfl, run_guard_held_single_warning_no_calls false true { name := "t" } cfgAll true 5
    envOk (fun _ => false) rfl⟩

/-- C2: the claim that the listing call is restricted to the self-test prefix
fails on the code. Evaluating the list probe at an input that passes its
preconditions shows the single storage-client list call carries `none` in the
prefix position — `verify_list` never forwards the self-test prefix it was
handed — so the call is not the prefix-restricted call the claim demands. -/
theorem verify_list_passes_no_prefix_to_client :
    (verify_list "t" false true "bkt" "self-test/" 723 cbOk).2
        = [storage_call.list "bkt" none 723]
      ∧ (verify_list "t" false true "bkt" "self-test/" 723 cbOk).2
        ≠ [storage_call.list "bkt" (some "self-test/") 723] := by
  exact ⟨rfl, by decide⟩

/-- C3: the claim that the download probe records elapsed time on every
outcome fails on the code. At an input where the download call is made and
returns success after an observed elapsed time of 5, and likewise at one
where it reports a transport failure, the returned result leaves `duration`
at its default initial value: the `co_return` inside the `try` block skips
`result.duration = end - start`, which only runs on the exception path. -/
theorem verify_download_success_skips_duration :
    cbOk.download_outcome = Except.ok download_result.success
      ∧ cbOk.download_elapsed = 5
      ∧ ((verify_download "t" false true "bkt" (some "self-test/u1") cbOk).1.2).duration = none
      ∧ ((verify_download "t" false true "bkt" (some "self-test/u1")
            { cbOk with download_outcome := Except.ok download_result.failed }).1.2).duration
          = none
      ∧ ((verify_download "t" false true "bkt" (some "self-test/u1")
            { cbOk with download_outcome := Except.error "boom" }).1.2).duration
          = some 5 := by
  exact ⟨rfl, rfl, rfl, rfl, rfl⟩

/-- C7: with the captured remote-write flag disabled and the run not
cancelled, the upload and delete probes return error-populated results and
issue no storage-client call; symmetrically with remote-read disabled, the
list and download probes return error-populated results without any
storage-client call, the list probe additionally handing back the
`error_outcome::fail` sentinel listing. -/
theorem disabled_flags_error_and_no_client_call (n b k : String)
    (p : Option Bytes) (pfx : String) (mk : Nat) (okey : Option String)
    (cb : client_behavior) :
    ((verify_upload n false false b k p cb).1.error
          = some "Remote write is not enabled for this cluster."
        ∧ (verify_upload n false false b k p cb).2 = [])
      ∧ ((verify_delete n false false b k cb).1.error
          = some "Remote write is not enabled for this cluster."
        ∧ (verify_delete n false false b k cb).2 = [])
      ∧ ((verify_list n false false b pfx mk cb).1.2.error
          = some "Remote read is not enabled for this cluster."
        ∧ (verify_list n false false b pfx mk cb).1.1 = none
        ∧ (verify_list n false false b pfx mk cb).2 = [])
      ∧ ((verify_download n false false b okey cb).1.2.error
          = some "Remote read is not enabled for this cluster."
        ∧ (verify_download n false false b okey cb).2 = []) := by
  exact ⟨⟨rfl, rfl⟩, ⟨rfl, rfl⟩, ⟨rfl, rfl, rfl⟩, ⟨rfl, rfl⟩⟩

/-- C10: when the list probe passes its cancellation and read-enabled
preconditions, every non-throwing outcome of the storage-client list call —
a listing obtained or the failure report alike — leaves the result's
`duration` at its default initial value; `duration` is assigned (to the
elapsed time of the call) exactly on the path where the call throws. -/
theorem verify_list_duration_only_on_exception (n b pfx : String) (mk : Nat)
    (cb : client_behavior) :
    (∀ x : list_result, cb.list_outcome = Except.ok x →
        ((verify_list n false true b pfx mk cb).1.2).duration = none)
      ∧ (∀ msg : String, cb.list_outcome = Except.error msg →
        ((verify_list n false true b pfx mk cb).1.2).duration
          = some cb.list_elapsed) := by
  constructor
  · intro x hx
    cases x <;> simp [verify_list, hx]
  · intro msg hmsg
    simp [verify_list, hmsg]

theorem verify_list_duration_only_on_exception_witness :
    (((verify_list "t" false true "bkt" "self-test/" 5 cbOk).1.2).duration = none)
      ∧ (((verify_list "t" false true "bkt" "self-test/" 5 cbThrow).1.2).duration = some 4) :=
  ⟨(verify_list_duration_only_on_exception "t" "bkt" "self-test/" 5 cbOk).1
      (some { contents := [{ key := "self-test/u1", size_bytes := 3 }] }) rfl,
   (verify_list_duration_only_on_exception "t" "bkt" "self-test/" 5 cbThrow).2 "boom" rfl⟩

/-- C9: once every orchestrator gate passes (gate open, cloud storage
enabled, storage api initialised), `run` returns exactly four results, one
per probe in the fixed order upload, list, download, delete, and in no
returned result are `warning` and `error` both set. -/
theorem run_probe_sequence_order_and_disjointness (a : Bool)
    (opts : cloudcheck_opts) (cfg : configuration) (ini : Bool) (mk : Nat)
    (env : bench_env) (c : Nat → Bool)
    (h1 : cfg.cloud_storage_enabled = true) (h2 : ini = true) :
    (run a false opts cfg ini mk env c).1.length = 4
      ∧ (run a false opts cfg ini mk env c).1.map (fun r => r.info)
          = ["upload", "list", "download", "delete"]
      ∧ ∀ r ∈ (run a false opts cfg ini mk env c).1,
          r.warning = none ∨ r.error = none := by
  subst h2
  have hrun : run a false opts cfg true mk env c
      = run_benchmarks opts.name cfg.cloud_storage_enable_remote_read
          cfg.cloud_storage_enable_remote_write cfg.bucket mk env
          (flagFrom false c) := by
    simp [run, h1]
  rw [hrun]
  exact run_benchmarks_shape _ _ _ _ _ _ _

theorem run_probe_sequence_order_and_disjointness_witness :
    (cfgAll.cloud_storage_enabled = true ∧ true = true)
      ∧ (run false false { name := "t" } cfgAll true 5 envOk (fun _ => false)).1.map
          (fun r => r.info) = ["upload", "list", "download", "delete"] :=
  ⟨⟨rfl, rfl⟩,
   (run_probe_sequence_order_and_disjointness false { name := "t" } cfgAll true 5 envOk
      (fun _ => false) rfl rfl).2.1⟩

/-- C4: in an invocation where the upload probe succeeded and the download
probe's storage-client call was made and returned success, the downloaded
bytes are compared byte-for-byte with the originally generated payload: any
difference sets the download result's error to the mismatch message even
though the call itself succeeded, and exact equality leaves the error
unset. -/
theorem download_roundtrip_comparison (n b : String) (mk : Nat)
    (env : bench_env) (fl : Nat → Bool) (h0 : fl 0 = false)
    (hup : env.cb.upload_outcome = Except.ok upload_result.success)
    (h2 : fl 2 = false)
    (hdl : env.cb.download_outcome = Except.ok download_result.success) :
    (env.cb.download_bytes ≠ env.gen_payload →
        ((run_benchmarks n true true b mk env fl).1.getD 2 default).error
          = some "Downloaded object differs from uploaded payload.")
      ∧ (env.cb.download_bytes = env.gen_payload →
        ((run_benchmarks n true true b mk env fl).1.getD 2 default).error = none) := by
  have hsimp : (run_benchmarks n true true b mk env fl).1.getD 2 default
      = check_download_consistency true (some env.gen_payload)
          (some env.cb.download_bytes)
          { name := n, info := "download", test_type := "cloud_storage" } := by
    simp [run_benchmarks, h0, h2, hup, hdl, verify_upload, verify_download]
  rw [hsimp]
  constructor
  · intro hne
    simp [check_download_consistency, hne]
  · intro heq
    simp [check_download_consistency, heq]

theorem download_roundtrip_comparison_witness :
    ((run_benchmarks "t" true true "bkt" 5 envBad (fun _ => false)).1.getD 2 default).error
      = some "Downloaded object differs from uploaded payload." :=
  (download_roundtrip_comparison "t" "bkt" 5 envBad (fun _ => false) rfl rfl rfl rfl).1
    (by decide)

/-- C5: in an invocation where the upload probe succeeded and the listing
call returned a listing, absence of the uploaded self-test key among the
returned entries overwrites the list result's error with the
consistency-failure message even though the listing call itself succeeded,
while presence of the key leaves the list result's error unset. -/
theorem list_consistency_cross_check (n b : String) (mk : Nat)
    (env : bench_env) (fl : Nat → Bool) (ol : list_bucket_result)
    (h0 : fl 0 = false)
    (hup : env.cb.upload_outcome = Except.ok upload_result.success)
    (h1 : fl 1 = false)
    (hli : env.cb.list_outcome = Except.ok (some ol)) :
    (ol.contents.any (fun item => item.key == ("self-test/" ++ env.uuid)) = false →
        ((run_benchmarks n true true b mk env fl).1.getD 1 default).error
          = some "Uploaded key/payload could not be found in cloud storage item list.")
      ∧ (ol.contents.any (fun item => item.key == ("self-test/" ++ env.uuid)) = true →
        ((run_benchmarks n true true b mk env fl).1.getD 1 default).error = none) := by
  have hsimp : (run_benchmarks n true true b mk env fl).1.getD 1 default
      = check_list_consistency true ("self-test/" ++ env.uuid) (some ol)
          { name := n, info := "list", test_type := "cloud_storage" } := by
    simp [run_benchmarks, h0, h1, hup, hli, verify_upload, verify_list]
  rw [hsimp]
  constructor
  · intro hab
    simp [check_list_consistency, hab]
  · intro hpres
    simp [check_list_consistency, hpres]

theorem list_consistency_cross_check_witness :
    ((run_benchmarks "t" true true "bkt" 5 envMissingKey (fun _ => false)).1.getD 1
        default).error
      = some "Uploaded key/payload could not be found in cloud storage item list." :=
  (list_consistency_cross_check "t" "bkt" 5 envMissingKey (fun _ => false)
      { contents := [{ key := "other", size_bytes := 7 }] } rfl rfl rfl rfl).1 (by decide)

/-- C6: the download probe's target selection, for an invocation whose
download probe passes its cancellation and read-enabled checks. If the upload
probe succeeded, the single download call targets exactly the uploaded
self-test key. If it did not succeed but the run's listing yields a candidate,
the single download call targets an entry of minimal `size_bytes` among the
listed entries. If no candidate key is available, the download probe returns
a warning-tagged result (no-file-found message) and issues no storage-client
call. -/
theorem download_target_selection (n : String) (rw : Bool) (b : String)
    (mk : Nat) (env : bench_env) (fl : Nat → Bool) (h2 : fl 2 = false) :
    (((run_benchmarks n true rw b mk env fl).1.getD 0 default).warning = none
        ∧ ((run_benchmarks n true rw b mk env fl).1.getD 0 default).error = none →
      (run_benchmarks n true rw b mk env fl).2.getD 2 []
        = [storage_call.download b ("self-test/" ++ env.uuid)])
    ∧ (¬(((run_benchmarks n true rw b mk env fl).1.getD 0 default).warning = none
          ∧ ((run_benchmarks n true rw b mk env fl).1.getD 0 default).error = none) →
      ∀ k : String,
        get_min_object_key (verify_list n (fl 1) true b "self-test/" mk env.cb).1.1
            = some k →
          (run_benchmarks n true rw b mk env fl).2.getD 2 []
              = [storage_call.download b k]
            ∧ ∃ ol, (verify_list n (fl 1) true b "self-test/" mk env.cb).1.1 = some ol
                ∧ ∃ item ∈ ol.contents, item.key = k
                    ∧ ∀ y ∈ ol.contents, item.size_bytes ≤ y.size_bytes)
    ∧ (¬(((run_benchmarks n true rw b mk env fl).1.getD 0 default).warning = none
          ∧ ((run_benchmarks n true rw b mk env fl).1.getD 0 default).error = none) →
        get_min_object_key (verify_list n (fl 1) true b "self-test/" mk env.cb).1.1
            = none →
          ((run_benchmarks n true rw b mk env fl).1.getD 2 default).warning
              = some "Could not download from cloud storage (no file was found in the bucket)."
            ∧ (run_benchmarks n true rw b mk env fl).2.getD 2 [] = []) := by
  have hget0 : (run_benchmarks n true rw b mk env fl).1.getD 0 default
      = (verify_upload n (fl 0) rw b ("self-test/" ++ env.uuid)
          (if rw = true then some env.gen_payload else none) env.cb).1 := by
    simp [run_benchmarks]
  refine ⟨?_, ?_, ?_⟩
  · rintro ⟨hw, he⟩
    rw [hget0] at hw he
    have hb : ((verify_upload n (fl 0) rw b ("self-test/" ++ env.uuid)
        (if rw = true then some env.gen_payload else none) env.cb).1.warning.isNone
        && (verify_upload n (fl 0) rw b ("self-test/" ++ env.uuid)
          (if rw = true then some env.gen_payload else none) env.cb).1.error.isNone)
        = true := by
      rw [hw, he]; rfl
    have htr : (run_benchmarks n true rw b mk env fl).2.getD 2 []
        = (verify_download n (fl 2) true b (some ("self-test/" ++ env.uuid)) env.cb).2 := by
      simp [run_benchmarks, hb]
    rw [htr, h2]
    exact verify_download_calls_some n b _ env.cb
  · intro hnu k hk
    rw [hget0] at hnu
    have hb : ((verify_upload n (fl 0) rw b ("self-test/" ++ env.uuid)
        (if rw = true then some env.gen_payload else none) env.cb).1.warning.isNone
        && (verify_upload n (fl 0) rw b ("self-test/" ++ env.uuid)
          (if rw = true then some env.gen_payload else none) env.cb).1.error.isNone)
        = false := by
      cases hw : (verify_upload n (fl 0) rw b ("self-test/" ++ env.uuid)
          (if rw = true then some env.gen_payload else none) env.cb).1.warning
        <;> cases he : (verify_upload n (fl 0) rw b ("self-test/" ++ env.uuid)
          (if rw = true then some env.gen_payload else none) env.cb).1.error
        <;> simp_all
    have htr : (run_benchmarks n true rw b mk env fl).2.getD 2 []
        = (verify_download n (fl 2) true b
            (get_min_object_key
              (verify_list n (fl 1) true b "self-test/" mk env.cb).1.1) env.cb).2 := by
      simp [run_benchmarks, hb]
    refine ⟨?_, ?_⟩
    · rw [htr, hk, h2]
      exact verify_download_calls_some n b _ env.cb
    · cases hol : (verify_list n (fl 1) true b "self-test/" mk env.cb).1.1 with
      | none => rw [hol] at hk; simp [get_min_object_key] at hk
      | some ol =>
          rw [hol] at hk
          exact ⟨ol, rfl, get_min_object_key_some ol k hk⟩
  · intro hnu hnone
    rw [hget0] at hnu
    have hb : ((verify_upload n (fl 0) rw b ("self-test/" ++ env.uuid)
        (if rw = true then some env.gen_payload else none) env.cb).1.warning.isNone
        && (verify_upload n (fl 0) rw b ("self-test/" ++ env.uuid)
          (if rw = true then some env.gen_payload else none) env.cb).1.error.isNone)
        = false := by
      cases hw : (verify_upload n (fl 0) rw b ("self-test/" ++ env.uuid)
          (if rw = true then some env.gen_payload else none) env.cb).1.warning
        <;> cases he : (verify_upload n (fl 0) rw b ("self-test/" ++ env.uuid)
          (if rw = true then some env.gen_payload else none) env.cb).1.error
        <;> simp_all
    constructor
    · have hres : (run_benchmarks n true rw b mk env fl).1.getD 2 default
          = check_download_consistency false
              (if rw = true then some env.gen_payload else none)
              (verify_download n (fl 2) true b
                (get_min_object_key
                  (verify_list n (fl 1) true b "self-test/" mk env.cb).1.1) env.cb).1.1
              (verify_download n (fl 2) true b
                (get_min_object_key
                  (verify_list n (fl 1) true b "self-test/" mk env.cb).1.1) env.cb).1.2 := by
        simp [run_benchmarks, hb]
      rw [hres, hnone, h2, check_download_consistency_false]
      rfl
    · have htr : (run_benchmarks n true rw b mk env fl).2.getD 2 []
          = (verify_download n (fl 2) true b
              (get_min_object_key
                (verify_list n (fl 1) true b "self-test/" mk env.cb).1.1) env.cb).2 := by
        simp [run_benchmarks, hb]
      rw [htr, hnone, h2]
      rfl

theorem download_target_selection_witness :
    ((fun _ : Nat => false) 2 = false)
      ∧ ((run_benchmarks "t" true true "bkt" 5 envUploadFailed (fun _ => false)).2.getD 2 []
            = [storage_call.download "bkt" "small"]
          ∧ ∃ ol, (verify_list "t" ((fun _ : Nat => false) 1) true "bkt" "self-test/" 5
                envUploadFailed.cb).1.1 = some ol
              ∧ ∃ item ∈ ol.contents, item.key = "small"
                  ∧ ∀ y ∈ ol.contents, item.size_bytes ≤ y.size_bytes) :=
  ⟨rfl,
   (download_target_selection "t" true "bkt" 5 envUploadFailed (fun _ => false) rfl).2.1
     (by decide) "small" (by decide)⟩

/-- C8: cooperative cancellation. If the `_cancelled` flag is observed set at
the start of probe `i`, then probe `i` and every later probe of the
invocation returns a result whose warning is the manually-cancelled message,
with `error` unset, and issues no storage-client call (the flag, once set,
never clears within a run). A probe is affected only by cancel requests that
land no later than its own start: requests arriving once a probe has begun
leave that probe and every earlier probe unchanged. And `run` discards the
`_cancelled` value left over from before the invocation, resetting it to
false on entry. -/
theorem cancellation_cooperative_semantics (n : String) (rr rw : Bool)
    (b : String) (mk : Nat) (env : bench_env) (c : Nat → Bool) (i : Nat)
    (hfl : flagFrom false c i = true) :
    (∀ j, i ≤ j → j < 4 →
        ((run_benchmarks n rr rw b mk env (flagFrom false c)).1.getD j default).warning
            = some "Run was manually cancelled."
          ∧ ((run_benchmarks n rr rw b mk env (flagFrom false c)).1.getD j default).error
            = none
          ∧ (run_benchmarks n rr rw b mk env (flagFrom false c)).2.getD j [] = [])
      ∧ (∀ c' : Nat → Bool, (∀ k, k ≤ i → c' k = c k) → ∀ j, j ≤ i → j < 4 →
          (run_benchmarks n rr rw b mk env (flagFrom false c')).1.getD j default
              = (run_benchmarks n rr rw b mk env (flagFrom false c)).1.getD j default
            ∧ (run_benchmarks n rr rw b mk env (flagFrom false c')).2.getD j []
              = (run_benchmarks n rr rw b mk env (flagFrom false c)).2.getD j [])
      ∧ (∀ a a' gc : Bool, ∀ opts : cloudcheck_opts, ∀ cfg : configuration,
          ∀ ini : Bool,
          run a gc opts cfg ini mk env c = run a' gc opts cfg ini mk env c) := by
  refine ⟨?_, ?_, ?_⟩
  · intro j hij hj4
    have hfj : flagFrom false c j = true := flagFrom_mono false c hij hfl
    interval_cases j
    · refine ⟨?_, ?_, ?_⟩ <;>
        simp [run_benchmarks, hfj, verify_upload]
    · refine ⟨?_, ?_, ?_⟩ <;>
        simp [run_benchmarks, hfj, verify_list, check_list_consistency_none]
    · refine ⟨?_, ?_, ?_⟩ <;>
        simp [run_benchmarks, hfj, verify_download, check_download_consistency_none]
    · refine ⟨?_, ?_, ?_⟩ <;>
        simp [run_benchmarks, hfj, verify_delete]
  · intro c' hagr j hji hj4
    have e : ∀ j', j' ≤ i → flagFrom false c' j' = flagFrom false c j' :=
      flagFrom_agree false c c' i hagr
    interval_cases j
    · constructor <;> simp [run_benchmarks, e 0 (by omega)]
    · constructor <;> simp [run_benchmarks, e 0 (by omega), e 1 (by omega)]
    · constructor <;>
        simp [run_benchmarks, e 0 (by omega), e 1 (by omega), e 2 (by omega)]
    · constructor <;>
        simp [run_benchmarks, e 0 (by omega), e 1 (by omega), e 2 (by omega), e 3 (by omega)]
  · intro a a' gc opts cfg ini
    rfl

theorem cancellation_cooperative_semantics_witness :
    flagFrom false (fun _ => true) 0 = true
      ∧ ((run_benchmarks "t" true true "bkt" 5 envOk
            (flagFrom false (fun _ => true))).1.getD 3 default).warning
          = some "Run was manually cancelled." :=
  ⟨rfl,
   ((cancellation_cooperative_semantics "t" true true "bkt" 5 envOk (fun _ => true) 0
      rfl).1 3 (Nat.zero_le 3) (by decide)).1⟩

end Cloudcheck
